import Mathlib

/-!
Shallow embedding of `src/main.go` from the golang-hrms-gofiber-mongodb
project: a Fiber HTTP service exposing CRUD handlers over a MongoDB
collection of employee records.

Modelling choices:
* A MongoDB document is a list of (key, value) pairs; the collection is a
  list of documents in insertion order.
* `Salary` and `Age` are `float64` in the source.  No handler performs
  arithmetic on them — they are only parsed, copied and echoed — so they are
  embedded as an abstract numeric carrier `F64` with decidable equality.
* Each handler becomes a pure function of the collection plus the outcomes
  of the fallible external steps (body parsing, driver failures, decode
  results).  Its output is a `HandlerResult`: the ordered list of response
  writes it performed, the resulting collection, and the ordered list of
  store operations it issued.
-/

/-- Carrier for the source's float64 fields (no arithmetic is performed on
them anywhere in the program, only copying, so any carrier with decidable
equality is faithful). -/
abbrev F64 := Int

/-- BSON values that occur in this program: strings, numbers, and ObjectIDs
(represented by their 24-character lowercase hex encoding). -/
inductive BsonValue where
  | str (s : String)
  | num (x : F64)
  | oid (hex : String)
deriving DecidableEq, Repr

/-- A BSON document: ordered key/value pairs. -/
abbrev BsonDoc := List (String × BsonValue)

/-- The employees collection, in natural (insertion) order. -/
abbrev Collection := List BsonDoc

/-- The Employee struct of `src/main.go` (json/bson tags: ID ↦ `_id`,
omitempty). -/
structure Employee where
  ID : String
  Name : String
  Salary : F64
  Age : F64
deriving DecidableEq, Repr

/-- Go zero value of Employee, as produced by `new(Employee)`. -/
def zeroEmployee : Employee := { ID := "", Name := "", Salary := 0, Age := 0 }

/-- MongoDB ObjectID: carried as its hex text form. -/
structure ObjectID where
  hex : String
deriving DecidableEq, Repr

/-- Whether a string is a valid 24-digit hex encoding of an ObjectID. -/
def validObjectIDHex (s : String) : Bool :=
  s.length == 24 && s.toList.all (fun c => c.isDigit || ("abcdefABCDEF".toList.contains c))

/-- Lowercase a single hex digit (only the characters admitted by
`validObjectIDHex` matter). -/
def lowerHexChar (c : Char) : Char :=
  if c = 'A' then 'a' else if c = 'B' then 'b' else if c = 'C' then 'c'
  else if c = 'D' then 'd' else if c = 'E' then 'e' else if c = 'F' then 'f'
  else c

/-- Lowercase a hex string. -/
def lowerHex (s : String) : String := ⟨s.data.map lowerHexChar⟩

/-- Model of `primitive.ObjectIDFromHex`: succeeds exactly on 24-digit hex
strings; hex decoding is case-insensitive, so the ObjectID is the lowercased
hex. -/
def objectIDFromHex (s : String) : Option ObjectID :=
  if validObjectIDHex s then some ⟨lowerHex s⟩ else none

/-- Error text of the driver's `primitive.ErrInvalidHex`. -/
def errInvalidHex : String := "the provided hex string is not a valid ObjectID"

/-- First value bound to a key in a document. -/
def lookupField : BsonDoc → String → Option BsonValue
  | [], _ => none
  | p :: ps, k => if p.1 = k then some p.2 else lookupField ps k

/-- First document of the collection whose `_id` equals the given value
(model of `collection.FindOne` with an `_id` filter). -/
def findOne : Collection → BsonValue → Option BsonDoc
  | [], _ => none
  | d :: ds, v => if lookupField d "_id" = some v then some d else findOne ds v

/-- One `$set` field: replace the key's binding in place, or append it. -/
def setField : BsonDoc → String → BsonValue → BsonDoc
  | [], k, v => [(k, v)]
  | p :: ps, k, v => if p.1 = k then (k, v) :: ps else p :: setField ps k v

/-- Apply a `$set` update document to a document. -/
def applySet (d : BsonDoc) (fields : List (String × BsonValue)) : BsonDoc :=
  fields.foldl (fun acc kv => setField acc kv.1 kv.2) d

/-- Model of `collection.FindOneAndUpdate` with an `_id` filter and a `$set`
update: returns the first matching document (pre-update) and the updated
collection; no upsert, so a miss leaves the collection as is. -/
def findOneAndUpdate : Collection → BsonValue → List (String × BsonValue) →
    Option BsonDoc × Collection
  | [], _, _ => (none, [])
  | d :: ds, v, upd =>
    if lookupField d "_id" = some v then (some d, applySet d upd :: ds)
    else
      let r := findOneAndUpdate ds v upd
      (r.1, d :: r.2)

/-- Model of `collection.DeleteOne` with an `_id` filter: removes the first
matching document and reports the deleted count. -/
def deleteOne : Collection → BsonValue → Nat × Collection
  | [], _ => (0, [])
  | d :: ds, v =>
    if lookupField d "_id" = some v then (1, ds)
    else
      let r := deleteOne ds v
      (r.1, d :: r.2)

/-- The `_id` value the store ends up with when inserting an employee: the
bson tag `_id,omitempty` omits an empty ID, so the store generates a fresh
ObjectID; a non-empty ID would be stored as a string key. -/
def insertIdValue (e : Employee) (gen : ObjectID) : BsonValue :=
  if e.ID = "" then BsonValue.oid gen.hex else BsonValue.str e.ID

/-- BSON marshalling of an Employee (struct field order; `_id` per
`insertIdValue`). -/
def employeeToDoc (e : Employee) (gen : ObjectID) : BsonDoc :=
  [("_id", insertIdValue e gen), ("name", BsonValue.str e.Name),
   ("salary", BsonValue.num e.Salary), ("age", BsonValue.num e.Age)]

/-- Driver decoding of a document into the Employee struct (the default
string codec decodes an ObjectID `_id` to its hex form). -/
def decodeEmployee (d : BsonDoc) : Employee :=
  { ID := match lookupField d "_id" with
      | some (BsonValue.oid h) => h
      | some (BsonValue.str s) => s
      | _ => ""
    Name := match lookupField d "name" with
      | some (BsonValue.str s) => s
      | _ => ""
    Salary := match lookupField d "salary" with
      | some (BsonValue.num x) => x
      | _ => 0
    Age := match lookupField d "age" with
      | some (BsonValue.num x) => x
      | _ => 0 }

/-- Response writes a handler can perform on the Fiber context, in order. -/
inductive WriteEvent where
  | setStatus (code : Nat)
  | sendString (s : String)
  | sendStatus (code : Nat)
  | jsonEmployee (e : Employee)
  | jsonEmployees (es : List Employee)
  | jsonString (s : String)
deriving DecidableEq, Repr

/-- Store operations a handler can issue, in order. -/
inductive StoreOp where
  | findAll
  | insertOne (doc : BsonDoc)
  | findOne (id : BsonValue)
  | findOneAndUpdate (id : BsonValue)
  | deleteOne (id : BsonValue)
deriving DecidableEq, Repr

/-- Outcome of running one handler: response writes, resulting collection,
store operations issued. -/
structure HandlerResult where
  writes : List WriteEvent
  coll : Collection
  ops : List StoreOp
deriving DecidableEq, Repr

/-- Outcome of `SingleResult.Decode` into a fresh Employee: on failure the
target record keeps whatever fields were decoded before the error (the zero
value if none). -/
inductive DecodeOutcome where
  | ok (e : Employee)
  | fail (e : Employee)
deriving DecidableEq, Repr

/-- The driver decode behaviour in normal operation: decoding succeeds and
yields `decodeEmployee`. -/
def decOk : BsonDoc → DecodeOutcome := fun d => DecodeOutcome.ok (decodeEmployee d)

/-- GET /employee handler.  `findFail` injects a failure of
`collection.Find`; `allFail` injects a failure of `cursor.All`, carrying the
error text and the (possibly incomplete) slice contents at the point of
failure.  Note the source does NOT return after the `cursor.All` error write:
it falls through to `c.JSON(employees)`. -/
def listHandler (coll : Collection) (findFail : Option String)
    (allFail : Option (String × List Employee)) : HandlerResult :=
  match findFail with
  | some e => ⟨[WriteEvent.setStatus 500, WriteEvent.sendString e], coll, [StoreOp.findAll]⟩
  | none =>
    match allFail with
    | some (e, sofar) =>
      ⟨[WriteEvent.setStatus 500, WriteEvent.sendString e,
        WriteEvent.jsonEmployees sofar], coll, [StoreOp.findAll]⟩
    | none =>
      ⟨[WriteEvent.jsonEmployees (coll.map decodeEmployee)], coll, [StoreOp.findAll]⟩

/-- POST /employee handler.  `bodyOutcome` is the result of `c.BodyParser`;
`gen` is the ObjectID the store would generate for this insert; `insertFail`
injects an `InsertOne` infrastructure failure; `dec` is the behaviour of the
confirmatory re-fetch decode (its error, if any, is swallowed by the
source). -/
def postHandler (coll : Collection) (bodyOutcome : Except String Employee)
    (gen : ObjectID) (insertFail : Option String)
    (dec : BsonDoc → DecodeOutcome) : HandlerResult :=
  match bodyOutcome with
  | Except.error e => ⟨[WriteEvent.setStatus 400, WriteEvent.sendString e], coll, []⟩
  | Except.ok emp0 =>
    let emp : Employee := { emp0 with ID := "" }
    let idv := insertIdValue emp gen
    let doc := employeeToDoc emp gen
    match insertFail with
    | some e => ⟨[WriteEvent.setStatus 500, WriteEvent.sendString e], coll, [StoreOp.insertOne doc]⟩
    | none =>
      match findOne coll idv with
      | some _ =>
        ⟨[WriteEvent.setStatus 500, WriteEvent.sendString "duplicate key error"], coll,
          [StoreOp.insertOne doc]⟩
      | none =>
        let coll2 := coll ++ [doc]
        let created :=
          match findOne coll2 idv with
          | some d => (match dec d with | DecodeOutcome.ok e => e | DecodeOutcome.fail e => e)
          | none => zeroEmployee
        ⟨[WriteEvent.setStatus 201, WriteEvent.jsonEmployee created], coll2,
          [StoreOp.insertOne doc, StoreOp.findOne idv]⟩

/-- The `$set` update document built by the PUT handler (source order: name,
age, salary, from the parsed body). -/
def buildUpdate (e : Employee) : List (String × BsonValue) :=
  [("name", BsonValue.str e.Name), ("age", BsonValue.num e.Age),
   ("salary", BsonValue.num e.Salary)]

/-- PUT /employee/:id handler.  `updateFail` injects a `FindOneAndUpdate`
infrastructure failure (any error other than ErrNoDocuments). -/
def putHandler (coll : Collection) (idParam : String)
    (bodyOutcome : Except String Employee) (updateFail : Option String) : HandlerResult :=
  match objectIDFromHex idParam with
  | none => ⟨[WriteEvent.sendStatus 400], coll, []⟩
  | some employeeID =>
    match bodyOutcome with
    | Except.error e => ⟨[WriteEvent.setStatus 400, WriteEvent.sendString e], coll, []⟩
    | Except.ok emp =>
      let idv := BsonValue.oid employeeID.hex
      match updateFail with
      | some _ => ⟨[WriteEvent.sendStatus 500], coll, [StoreOp.findOneAndUpdate idv]⟩
      | none =>
        let r := findOneAndUpdate coll idv (buildUpdate emp)
        match r.1 with
        | none => ⟨[WriteEvent.sendStatus 400], r.2, [StoreOp.findOneAndUpdate idv]⟩
        | some _ =>
          ⟨[WriteEvent.setStatus 200, WriteEvent.jsonEmployee { emp with ID := idParam }],
            r.2, [StoreOp.findOneAndUpdate idv]⟩

/-- DELETE /employee/:id handler.  `deleteFail` injects a `DeleteOne`
infrastructure failure. -/
def deleteHandler (coll : Collection) (idParam : String)
    (deleteFail : Option String) : HandlerResult :=
  match objectIDFromHex idParam with
  | none => ⟨[WriteEvent.setStatus 400, WriteEvent.sendString errInvalidHex], coll, []⟩
  | some employeeID =>
    let idv := BsonValue.oid employeeID.hex
    match deleteFail with
    | some _ => ⟨[WriteEvent.sendStatus 500], coll, [StoreOp.deleteOne idv]⟩
    | none =>
      let r := deleteOne coll idv
      if r.1 < 1 then ⟨[WriteEvent.sendStatus 404], r.2, [StoreOp.deleteOne idv]⟩
      else
        ⟨[WriteEvent.setStatus 200, WriteEvent.jsonString "record deleted..."], r.2,
          [StoreOp.deleteOne idv]⟩

/-- Model of the mongo client handle (the source's URI is a valid constant,
so `mongo.NewClient` cannot fail on it). -/
structure MongoClient where
  uri : String
deriving DecidableEq, Repr

/-- Model of the mongo database handle. -/
structure MongoDatabase where
  name : String
deriving DecidableEq, Repr

/-- The global `MongoInstance` struct. -/
structure MongoInstance where
  Client : Option MongoClient
  Db : Option MongoDatabase
deriving DecidableEq, Repr

/-- Go zero value of the global `mg`. -/
def mgZero : MongoInstance := { Client := none, Db := none }

/-- Constants of the source. -/
def dbName : String := "fiber-hrms"

/-- The hard-coded connection string. -/
def mongoURI : String := "mongodb://localhost:27017/" ++ dbName

/-- The `Connect` function: takes the current global `mg` and the outcome of
`client.Connect` (`some e` = connection error), returns the function result
and the new global `mg`.  The source checks the error before assigning `mg`. -/
def Connect (mg0 : MongoInstance) (connectErr : Option String) :
    Except String Unit × MongoInstance :=
  let client : MongoClient := { uri := mongoURI }
  let db : MongoDatabase := { name := dbName }
  match connectErr with
  | some e => (Except.error e, mg0)
  | none => (Except.ok (), { Client := some client, Db := some db })

/-- What startup ends in. -/
inductive StartupResult where
  | fatalExit (msg : String)
  | serverListening (port : Nat) (mgFinal : MongoInstance)
deriving DecidableEq, Repr

/-- The startup phase of `main`: connect first; on error `log.Fatal` exits
the process and the Fiber app is never created nor listens; otherwise the
app listens on port 3000. -/
def mainStartup (connectErr : Option String) : StartupResult :=
  let r := Connect mgZero connectErr
  match r.1 with
  | Except.error e => StartupResult.fatalExit e
  | Except.ok _ => StartupResult.serverListening 3000 r.2

/-- A sample stored employee document, used for concrete instantiations. -/
def annDoc : BsonDoc :=
  [("_id", BsonValue.oid "0123456789abcdef01234567"),
   ("name", BsonValue.str "Ann"), ("salary", BsonValue.num 1000),
   ("age", BsonValue.num 30)]

/-! ## Helper lemmas about the store model -/

theorem lookupField_setField_self (d : BsonDoc) (k : String) (v : BsonValue) :
    lookupField (setField d k v) k = some v := by
  induction d with
  | nil => simp [setField, lookupField]
  | cons p ps ih =>
    by_cases h : p.1 = k
    · simp [setField, h, lookupField]
    · simp [setField, h, lookupField, ih]

theorem lookupField_setField_other (d : BsonDoc) (k k2 : String) (v : BsonValue)
    (h : k2 ≠ k) : lookupField (setField d k v) k2 = lookupField d k2 := by
  induction d with
  | nil => simp [setField, lookupField, Ne.symm h]
  | cons p ps ih =>
    by_cases hp : p.1 = k
    · simp [setField, hp, lookupField, Ne.symm h]
    · simp [setField, hp, lookupField, ih]

theorem findOneAndUpdate_none_coll (coll : Collection) (v : BsonValue)
    (upd : List (String × BsonValue))
    (h : (findOneAndUpdate coll v upd).1 = none) :
    (findOneAndUpdate coll v upd).2 = coll := by
  induction coll with
  | nil => rfl
  | cons d ds ih =>
    by_cases hd : lookupField d "_id" = some v
    · simp [findOneAndUpdate, hd] at h
    · simp [findOneAndUpdate, hd] at h ⊢
      exact ih h

theorem findOne_append_of_none (coll : Collection) (d : BsonDoc) (v : BsonValue)
    (h : findOne coll v = none) (hd : lookupField d "_id" = some v) :
    findOne (coll ++ [d]) v = some d := by
  induction coll with
  | nil => simp [findOne, hd]
  | cons d0 ds ih =>
    by_cases h0 : lookupField d0 "_id" = some v
    · simp [findOne, h0] at h
    · simp [findOne, h0] at h ⊢
      exact ih h

theorem validObjectIDHex_ne_empty (s : String) (h : validObjectIDHex s = true) :
    s ≠ "" := by
  intro hempty
  rw [hempty] at h
  simp [validObjectIDHex] at h

/-! ## Claim theorems -/

/-- Claim C1 (code bug): in the GET /employee handler, a `cursor.All`
failure writes the 500 status and error text but the source does not
return there: it falls through and additionally writes the JSON employees
array, contradicting the spec's requirement that the handler terminate
with no further writes.  Evaluated at a concrete failing input. -/
theorem list_decode_failure_falls_through :
    listHandler [] none (some ("error decoding document", [])) =
      ⟨[WriteEvent.setStatus 500, WriteEvent.sendString "error decoding document",
        WriteEvent.jsonEmployees []], [], [StoreOp.findAll]⟩ := rfl

/-- Claim C6: on PUT and DELETE, a path identifier that does not parse as an
ObjectID yields HTTP 400 with no store operation issued and the collection
untouched. -/
theorem malformed_id_400_before_store (coll : Collection) (idParam : String)
    (bodyOutcome : Except String Employee) (uFail dFail : Option String)
    (h : objectIDFromHex idParam = none) :
    putHandler coll idParam bodyOutcome uFail =
      ⟨[WriteEvent.sendStatus 400], coll, []⟩ ∧
    deleteHandler coll idParam dFail =
      ⟨[WriteEvent.setStatus 400, WriteEvent.sendString errInvalidHex], coll, []⟩ := by
  constructor
  · simp [putHandler, h]
  · simp [deleteHandler, h]

theorem malformed_id_400_before_store_witness :
    putHandler [] "not-a-valid-objectid-----" (Except.ok zeroEmployee) none =
      ⟨[WriteEvent.sendStatus 400], [], []⟩ ∧
    deleteHandler [] "not-a-valid-objectid-----" none =
      ⟨[WriteEvent.setStatus 400, WriteEvent.sendString errInvalidHex], [], []⟩ :=
  malformed_id_400_before_store [] "not-a-valid-objectid-----" (Except.ok zeroEmployee)
    none none (by decide)

/-- Claim C7: a connection failure at startup ends in a fatal exit and the
server never listens. -/
theorem connect_failure_aborts_startup (e : String) :
    mainStartup (some e) = StartupResult.fatalExit e ∧
    ∀ p mgF, mainStartup (some e) ≠ StartupResult.serverListening p mgF := by
  refine ⟨rfl, ?_⟩
  intro p mgF hcontra
  simp [mainStartup, Connect] at hcontra

/-- Claim C10: `Connect` assigns the global `mg` only after the connection
step reports success; on error the global keeps its previous (zero) value. -/
theorem connect_error_preserves_global (mg0 : MongoInstance) (cErr : Option String)
    (e : String) (h : (Connect mg0 cErr).1 = Except.error e) :
    (Connect mg0 cErr).2 = mg0 := by
  cases cErr with
  | none => simp [Connect] at h
  | some x => rfl

theorem connect_error_preserves_global_witness :
    (Connect mgZero (some "server selection timeout")).1 =
      Except.error "server selection timeout" ∧
    (Connect mgZero (some "server selection timeout")).2 = mgZero :=
  ⟨rfl, connect_error_preserves_global mgZero (some "server selection timeout")
    "server selection timeout" rfl⟩

/-- Claim C3: on PUT with a well-formed identifier and parseable body, a
miss (no matching document) yields HTTP 400 with the collection unchanged
(no record created), and any other update failure yields HTTP 500. -/
theorem update_miss_400_no_create (coll : Collection) (idParam : String)
    (employeeID : ObjectID) (emp : Employee) (f : String)
    (hparse : objectIDFromHex idParam = some employeeID)
    (hmiss : (findOneAndUpdate coll (BsonValue.oid employeeID.hex) (buildUpdate emp)).1 = none) :
    putHandler coll idParam (Except.ok emp) none =
      ⟨[WriteEvent.sendStatus 400], coll,
        [StoreOp.findOneAndUpdate (BsonValue.oid employeeID.hex)]⟩ ∧
    (putHandler coll idParam (Except.ok emp) (some f)).writes = [WriteEvent.sendStatus 500] := by
  constructor
  · have h2 := findOneAndUpdate_none_coll coll (BsonValue.oid employeeID.hex) (buildUpdate emp) hmiss
    simp [putHandler, hparse, hmiss, h2]
  · simp [putHandler, hparse]

theorem update_miss_400_no_create_witness :
    putHandler [] "0123456789abcdef01234567" (Except.ok ⟨"", "Bo", 2000, 41⟩) none =
      ⟨[WriteEvent.sendStatus 400], [],
        [StoreOp.findOneAndUpdate (BsonValue.oid "0123456789abcdef01234567")]⟩ ∧
    (putHandler [] "0123456789abcdef01234567" (Except.ok ⟨"", "Bo", 2000, 41⟩)
      (some "network error")).writes = [WriteEvent.sendStatus 500] :=
  update_miss_400_no_create [] "0123456789abcdef01234567" ⟨"0123456789abcdef01234567"⟩
    ⟨"", "Bo", 2000, 41⟩ "network error" (by decide) (by decide)

/-- Claim C5: on a successful PUT the response is HTTP 200 whose JSON body
is exactly the request-body record with its ID set to the original path
parameter text, for any collection contents; the only store operation
issued is the find-and-update (no re-fetch). -/
theorem update_success_echoes_body (coll : Collection) (idParam : String)
    (employeeID : ObjectID) (emp : Employee) (d : BsonDoc)
    (hparse : objectIDFromHex idParam = some employeeID)
    (hmatch : (findOneAndUpdate coll (BsonValue.oid employeeID.hex) (buildUpdate emp)).1 = some d) :
    (putHandler coll idParam (Except.ok emp) none).writes =
      [WriteEvent.setStatus 200, WriteEvent.jsonEmployee { emp with ID := idParam }] ∧
    (putHandler coll idParam (Except.ok emp) none).ops =
      [StoreOp.findOneAndUpdate (BsonValue.oid employeeID.hex)] := by
  constructor
  · simp [putHandler, hparse, hmatch]
  · simp [putHandler, hparse, hmatch]

theorem update_success_echoes_body_witness :
    (putHandler [annDoc] "0123456789abcdef01234567"
        (Except.ok ⟨"client-sent-id", "Bo", 2000, 41⟩) none).writes =
      [WriteEvent.setStatus 200,
        WriteEvent.jsonEmployee ⟨"0123456789abcdef01234567", "Bo", 2000, 41⟩] ∧
    (putHandler [annDoc] "0123456789abcdef01234567"
        (Except.ok ⟨"client-sent-id", "Bo", 2000, 41⟩) none).ops =
      [StoreOp.findOneAndUpdate (BsonValue.oid "0123456789abcdef01234567")] :=
  update_success_echoes_body [annDoc] "0123456789abcdef01234567"
    ⟨"0123456789abcdef01234567"⟩ ⟨"client-sent-id", "Bo", 2000, 41⟩ annDoc
    (by decide) (by decide)

/-- Claim C4: on DELETE with a well-formed identifier, a deleted count of at
least 1 yields HTTP 200 with the literal confirmation body, a count of 0
yields HTTP 404, and a store failure yields HTTP 500. -/
theorem delete_status_mapping (coll : Collection) (idParam : String)
    (employeeID : ObjectID) (f : String)
    (hparse : objectIDFromHex idParam = some employeeID) :
    (1 ≤ (deleteOne coll (BsonValue.oid employeeID.hex)).1 →
      (deleteHandler coll idParam none).writes =
        [WriteEvent.setStatus 200, WriteEvent.jsonString "record deleted..."]) ∧
    ((deleteOne coll (BsonValue.oid employeeID.hex)).1 = 0 →
      (deleteHandler coll idParam none).writes = [WriteEvent.sendStatus 404]) ∧
    (deleteHandler coll idParam (some f)).writes = [WriteEvent.sendStatus 500] := by
  refine ⟨?_, ?_, ?_⟩
  · intro h
    have hlt : ¬ (deleteOne coll (BsonValue.oid employeeID.hex)).1 < 1 := by omega
    simp [deleteHandler, hparse, hlt]
  · intro h
    simp [deleteHandler, hparse, h]
  · simp [deleteHandler, hparse]

theorem delete_status_mapping_witness :
    (1 ≤ (deleteOne [annDoc] (BsonValue.oid "0123456789abcdef01234567")).1 →
      (deleteHandler [annDoc] "0123456789abcdef01234567" none).writes =
        [WriteEvent.setStatus 200, WriteEvent.jsonString "record deleted..."]) ∧
    ((deleteOne [annDoc] (BsonValue.oid "0123456789abcdef01234567")).1 = 0 →
      (deleteHandler [annDoc] "0123456789abcdef01234567" none).writes =
        [WriteEvent.sendStatus 404]) ∧
    (deleteHandler [annDoc] "0123456789abcdef01234567" (some "socket closed")).writes =
      [WriteEvent.sendStatus 500] :=
  delete_status_mapping [annDoc] "0123456789abcdef01234567" ⟨"0123456789abcdef01234567"⟩
    "socket closed" (by decide)

/-- Claim C2: the POST handler forces the body's ID empty before insertion,
so the stored document and the returned record carry the store-generated
ObjectID: the returned identifier is non-empty and distinct from the
client-supplied one. -/
theorem create_discards_client_id (coll : Collection) (emp0 : Employee) (gen : ObjectID)
    (hval : validObjectIDHex gen.hex = true)
    (hfresh : findOne coll (BsonValue.oid gen.hex) = none)
    (hdistinct : gen.hex ≠ emp0.ID) :
    postHandler coll (Except.ok emp0) gen none decOk =
      ⟨[WriteEvent.setStatus 201,
        WriteEvent.jsonEmployee ⟨gen.hex, emp0.Name, emp0.Salary, emp0.Age⟩],
       coll ++ [employeeToDoc ⟨"", emp0.Name, emp0.Salary, emp0.Age⟩ gen],
       [StoreOp.insertOne (employeeToDoc ⟨"", emp0.Name, emp0.Salary, emp0.Age⟩ gen),
        StoreOp.findOne (BsonValue.oid gen.hex)]⟩ ∧
    gen.hex ≠ "" ∧ gen.hex ≠ emp0.ID := by
  have hid : insertIdValue { emp0 with ID := "" } gen = BsonValue.oid gen.hex := by
    simp [insertIdValue]
  have hdoc : lookupField (employeeToDoc { emp0 with ID := "" } gen) "_id" =
      some (BsonValue.oid gen.hex) := by
    simp [employeeToDoc, lookupField, hid]
  have hfind := findOne_append_of_none coll (employeeToDoc { emp0 with ID := "" } gen)
    (BsonValue.oid gen.hex) hfresh hdoc
  refine ⟨?_, validObjectIDHex_ne_empty gen.hex hval, hdistinct⟩
  simp only [postHandler, hid, hfresh, hfind, decOk]
  simp [decodeEmployee, employeeToDoc, insertIdValue, lookupField]

theorem create_discards_client_id_witness :
    postHandler [] (Except.ok ⟨"client-id", "Ann", 1000, 30⟩)
        ⟨"0123456789abcdef01234567"⟩ none decOk =
      ⟨[WriteEvent.setStatus 201,
        WriteEvent.jsonEmployee ⟨"0123456789abcdef01234567", "Ann", 1000, 30⟩],
       [] ++ [employeeToDoc ⟨"", "Ann", 1000, 30⟩ ⟨"0123456789abcdef01234567"⟩],
       [StoreOp.insertOne (employeeToDoc ⟨"", "Ann", 1000, 30⟩ ⟨"0123456789abcdef01234567"⟩),
        StoreOp.findOne (BsonValue.oid "0123456789abcdef01234567")]⟩ ∧
    "0123456789abcdef01234567" ≠ "" ∧ "0123456789abcdef01234567" ≠ "client-id" :=
  create_discards_client_id [] ⟨"client-id", "Ann", 1000, 30⟩
    ⟨"0123456789abcdef01234567"⟩ (by decide) (by decide) (by decide)

/-- Claim C9: a decode failure during the confirmatory re-fetch in the POST
handler is swallowed: the handler still responds HTTP 201 with whatever
record the failed decode left behind (the zero value if nothing decoded),
never an error status. -/
theorem create_refetch_decode_error_swallowed (coll : Collection) (emp0 : Employee)
    (gen : ObjectID) (e : Employee)
    (hfresh : findOne coll (BsonValue.oid gen.hex) = none) :
    (postHandler coll (Except.ok emp0) gen none (fun _ => DecodeOutcome.fail e)).writes =
      [WriteEvent.setStatus 201, WriteEvent.jsonEmployee e] := by
  have hid : insertIdValue { emp0 with ID := "" } gen = BsonValue.oid gen.hex := by
    simp [insertIdValue]
  have hdoc : lookupField (employeeToDoc { emp0 with ID := "" } gen) "_id" =
      some (BsonValue.oid gen.hex) := by
    simp [employeeToDoc, lookupField, hid]
  have hfind := findOne_append_of_none coll (employeeToDoc { emp0 with ID := "" } gen)
    (BsonValue.oid gen.hex) hfresh hdoc
  simp only [postHandler, hid, hfresh, hfind]

theorem create_refetch_decode_error_swallowed_witness :
    (postHandler [] (Except.ok ⟨"", "Ann", 1000, 30⟩) ⟨"0123456789abcdef01234567"⟩
        none (fun _ => DecodeOutcome.fail zeroEmployee)).writes =
      [WriteEvent.setStatus 201, WriteEvent.jsonEmployee zeroEmployee] :=
  create_refetch_decode_error_swallowed [] ⟨"", "Ann", 1000, 30⟩
    ⟨"0123456789abcdef01234567"⟩ zeroEmployee (by decide)

/-- Claim C8: the `$set` update built by the PUT handler sets exactly the
name, age and salary fields; any other field of the matched document, in
particular `_id`, keeps its prior value. -/
theorem update_sets_only_name_age_salary (e : Employee) (d : BsonDoc) (k : String)
    (h1 : k ≠ "name") (h2 : k ≠ "age") (h3 : k ≠ "salary") :
    lookupField (applySet d (buildUpdate e)) k = lookupField d k ∧
    lookupField (applySet d (buildUpdate e)) "name" = some (BsonValue.str e.Name) ∧
    lookupField (applySet d (buildUpdate e)) "age" = some (BsonValue.num e.Age) ∧
    lookupField (applySet d (buildUpdate e)) "salary" = some (BsonValue.num e.Salary) := by
  have expand : applySet d (buildUpdate e) =
      setField (setField (setField d "name" (BsonValue.str e.Name)) "age"
        (BsonValue.num e.Age)) "salary" (BsonValue.num e.Salary) := rfl
  refine ⟨?_, ?_, ?_, ?_⟩ <;> rw [expand]
  · rw [lookupField_setField_other _ _ _ _ h3, lookupField_setField_other _ _ _ _ h2,
      lookupField_setField_other _ _ _ _ h1]
  · rw [lookupField_setField_other _ _ _ _ (by decide : ("name" : String) ≠ "salary"),
      lookupField_setField_other _ _ _ _ (by decide : ("name" : String) ≠ "age"),
      lookupField_setField_self]
  · rw [lookupField_setField_other _ _ _ _ (by decide : ("age" : String) ≠ "salary"),
      lookupField_setField_self]
  · rw [lookupField_setField_self]

theorem update_sets_only_name_age_salary_witness :
    lookupField (applySet annDoc (buildUpdate ⟨"ignored", "Bo", 2000, 41⟩)) "_id" =
      lookupField annDoc "_id" ∧
    lookupField (applySet annDoc (buildUpdate ⟨"ignored", "Bo", 2000, 41⟩)) "name" =
      some (BsonValue.str "Bo") ∧
    lookupField (applySet annDoc (buildUpdate ⟨"ignored", "Bo", 2000, 41⟩)) "age" =
      some (BsonValue.num 41) ∧
    lookupField (applySet annDoc (buildUpdate ⟨"ignored", "Bo", 2000, 41⟩)) "salary" =
      some (BsonValue.num 2000) :=
  update_sets_only_name_age_salary ⟨"ignored", "Bo", 2000, 41⟩ annDoc "_id"
    (by decide) (by decide) (by decide)
